import Mathlib

/-!
Verification of the Bingwa Data Deals Telegram bot (src/telegram_bot.py):
a shallow embedding of the conversation state machine, the phone
normalizer, the catalog, the user directory, the broadcast loop and the
payment-gateway classification, together with theorems settling the
specified properties.
-/

set_option maxHeartbeats 1000000

namespace Bingwa

/-! ## Catalog (telegram_bot.py, `data_packages`, lines 76-114) -/

/-- Model of the `DataPackage` class: display name, price (KSh, integer),
size, validity and description. -/
structure DataPackage where
  display_name : String
  price : Nat
  size : String
  validity : String
  description : String
deriving DecidableEq, Repr

/-- The static package table `data_packages` (keys paired with packages,
in source order). -/
def data_packages : List (String × DataPackage) :=
  [ ("data_1", ⟨"1.25GB till midnight @ Ksh 55", 55, "1.25GB", "Until midnight", "Same day data bundle"⟩),
    ("data_2", ⟨"250MB for 24hrs @ Ksh 18", 18, "250MB", "24 Hours", "Daily data bundle"⟩),
    ("data_3", ⟨"1GB for 1hr @ Ksh 19", 19, "1GB", "1 Hour", "Hourly data bundle"⟩),
    ("data_4", ⟨"Internet access for 3hrs @ Ksh 49", 49, "Unlimited", "3 Hours", "Hourly access bundle"⟩),
    ("data_5", ⟨"1GB for 24hrs @ Ksh 95", 95, "1GB", "24 Hours", "Daily data bundle"⟩),
    ("data_6", ⟨"350MB for 7 days @ Ksh 47", 47, "350MB", "7 Days", "Weekly data bundle"⟩),
    ("data_7", ⟨"2GB for 24hrs @ Ksh 100", 100, "2GB", "24 Hours", "Daily data bundle"⟩),
    ("data_8", ⟨"1.2GB for 30days @ Ksh 250", 250, "1.2GB", "30 Days", "Monthly data bundle"⟩),
    ("data_9", ⟨"1GB for 1hr @ Ksh 20", 20, "1GB", "1 Hour", "Hourly data bundle"⟩),
    ("data_10", ⟨"1.5GB for 3hrs @ Ksh 50", 50, "1.5GB", "3 Hours", "Hourly data bundle"⟩),
    ("data_11", ⟨"2GB for 24hrs @ Ksh 100", 100, "2GB", "24 Hours", "Daily data bundle"⟩) ]

/-- Dictionary lookup `data_packages.get(choice)`. -/
def lookupPackage (k : String) : Option DataPackage :=
  (data_packages.find? (fun kv => kv.1 = k)).map Prod.snd

/-- Numeric value of a digit string, as read by Python `int` on the
all-digit strings occurring as key suffixes. -/
def digitsVal (cs : List Char) : Nat :=
  cs.foldl (fun a c => a * 10 + (c.toNat - ('0').toNat)) 0

/-- Splitting on underscores, as Python `str.split` does with an
explicit separator (empty segments are kept). -/
def splitUnderscoreAux : List Char → List Char → List (List Char)
  | [], acc => [acc.reverse]
  | c :: rest, acc =>
    if c = '_' then acc.reverse :: splitUnderscoreAux rest []
    else splitUnderscoreAux rest (c :: acc)

/-- `int(k.split('_')[1])`: the numeric suffix of a package key. -/
def keySuffix (k : String) : Nat :=
  digitsVal ((splitUnderscoreAux k.data []).getD 1 [])

/-- Keys of the Bingwa category: `int(k.split('_')[1]) <= 8`
(show_bingwa_deals, line 285). -/
def bingwa_keys : List String :=
  (data_packages.filter (fun kv => keySuffix kv.1 ≤ 8)).map Prod.fst

/-- Keys of the Normal category: `int(k.split('_')[1]) > 8`
(show_normal_deals, line 326). -/
def normal_keys : List String :=
  (data_packages.filter (fun kv => 8 < keySuffix kv.1)).map Prod.fst

/-- All catalog keys. -/
def package_keys : List String := data_packages.map Prod.fst

/-! ## Phone Normalizer (`is_valid_phone_number`, lines 118-140)

The Python function first strips separators with
`re.sub(r'[\s\-\(\)]', '', phone)` and then tries, in order, the
patterns
  `^(?:\+254|254)?(7\d{8})$`, `^(?:\+254|254)?(1\d{8})$`,
  `^0(7\d{8})$`, `^0(1\d{8})$`,
returning `"254" + group(1)` on the first match and `None` otherwise. -/

/-- Characters removed by `re.sub(r'[\s\-\(\)]', '', phone)`: ASCII
whitespace (space 32, tab 9, newline 10, vertical tab 11, form feed 12,
carriage return 13), dash 45 and parentheses 40/41. -/
def sepChar (c : Char) : Bool :=
  c.toNat = 32 || c.toNat = 9 || c.toNat = 10 || c.toNat = 11 ||
  c.toNat = 12 || c.toNat = 13 || c.toNat = 45 || c.toNat = 40 || c.toNat = 41

/-- Separator stripping. -/
def stripSeps (cs : List Char) : List Char := cs.filter (fun c => !sepChar c)

/-- `\d`, i.e. the characters `0` (code 48) through `9` (code 57). -/
def isDigitChar (c : Char) : Bool := 48 ≤ c.toNat && c.toNat ≤ 57

/-- All characters are decimal digits. -/
def isDigits (cs : List Char) : Bool := cs.all isDigitChar

/-- The capture group `(lead\d{8})$`: the remaining input must be the
lead digit followed by exactly eight digits; the group is that whole
nine-character run. -/
def matchTail (lead : Char) (cs : List Char) : Option (List Char) :=
  match cs with
  | [] => none
  | c :: rest =>
    if c = lead && rest.length = 8 && isDigits rest then some (c :: rest) else none

/-- `^(?:\+254|254)?(lead\d{8})$` with Python backtracking order: try the
`+254` prefix, then the `254` prefix, then the empty prefix. -/
def matchIntl (lead : Char) (cs : List Char) : Option (List Char) :=
  if cs.take 4 = ['+', '2', '5', '4'] then matchTail lead (cs.drop 4)
  else if cs.take 3 = ['2', '5', '4'] then
    (matchTail lead (cs.drop 3)).orElse (fun _ => matchTail lead cs)
  else matchTail lead cs

/-- `^0(lead\d{8})$`. -/
def matchZero (lead : Char) (cs : List Char) : Option (List Char) :=
  match cs with
  | '0' :: rest => matchTail lead rest
  | _ => none

/-- The pattern loop: first matching pattern wins, producing the capture
group to which `"254"` is prefixed. -/
def normalizeChars (cs : List Char) : Option (List Char) :=
  match (matchIntl '7' cs).orElse (fun _ => matchIntl '1' cs)
        |>.orElse (fun _ => matchZero '7' cs)
        |>.orElse (fun _ => matchZero '1' cs) with
  | some g => some ('2' :: '5' :: '4' :: g)
  | none => none

/-- `is_valid_phone_number`: strip separators, match the Kenyan mobile
patterns, return the canonical `254XXXXXXXXX` string, else `None`. -/
def is_valid_phone_number (s : String) : Option String :=
  (normalizeChars (stripSeps s.data)).map String.mk

/-! ## User Directory (`register_user`, lines 175-201)

The source converts `user.id` to its string form once (`str(user.id)`)
and thereafter works only with that string; we embed identifiers in
their string form.  Timestamps are opaque values (modelled as `Nat`).
Storage I/O (`load_user_data`/`save_user_data`) is the identity on the
record list here; a storage failure degrades to a no-op in the source
and does not change the list transformation. -/

/-- The fields of the incoming platform user used by `register_user`. -/
structure TgUser where
  id : String
  username : Option String
  first_name : Option String
  last_name : Option String
deriving DecidableEq, Repr

/-- One stored record of `user_data.json`. -/
structure UserRecord where
  id : String
  username : Option String
  first_name : Option String
  last_name : Option String
  joined : Nat
  last_active : Nat
deriving DecidableEq, Repr

/-- `register_user`: scan for the first record with the same id and
update its name fields and `last_active`; if none exists, append a new
record with `joined` and `last_active` set to now. -/
def register_user (u : TgUser) (now : Nat) : List UserRecord → List UserRecord
  | [] => [⟨u.id, u.username, u.first_name, u.last_name, now, now⟩]
  | r :: rs =>
    if r.id = u.id then
      { r with username := u.username, first_name := u.first_name,
               last_name := u.last_name, last_active := now } :: rs
    else
      r :: register_user u now rs

/-! ## Admin broadcast (`admin_broadcast`, lines 757-828)

Each directory entry is attempted once inside a `try`; a successful send
increments `sent_count` and edits the status message with a progress
update whenever `sent_count % 10 == 0`; a failed send is caught and
increments `failed_count`.  After the loop, the status message is edited
to the final sent/failed tally.  We model a user as its id paired with
whether delivery succeeds, and record the observable events. -/

/-- Observable events of the broadcast loop. -/
inductive BEvent
  | attempt (id : String)
  | progress (sent : Nat)
  | finalTally (sent failed : Nat)
deriving DecidableEq, Repr

/-- The `for user_data in users` loop, carrying `sent_count` and
`failed_count`. -/
def broadcastLoop : List (String × Bool) → Nat → Nat → List BEvent × Nat × Nat
  | [], s, f => ([], s, f)
  | (uid, ok) :: rest, s, f =>
    if ok then
      let s1 := s + 1
      let here := if s1 % 10 = 0 then [BEvent.attempt uid, BEvent.progress s1]
                  else [BEvent.attempt uid]
      let r := broadcastLoop rest s1 f
      (here ++ r.1, r.2)
    else
      let r := broadcastLoop rest s (f + 1)
      (BEvent.attempt uid :: r.1, r.2)

/-- `admin_broadcast` body after reading the directory: with no users it
replies "No users found" and performs no sends; otherwise it runs the
loop and edits in the final tally. -/
def admin_broadcast (users : List (String × Bool)) : List BEvent × Nat × Nat :=
  if users.isEmpty then ([], 0, 0)
  else
    let r := broadcastLoop users 0 0
    (r.1 ++ [BEvent.finalTally r.2.1 r.2.2], r.2)

/-! ## Payment gateway classification (`initiate_stk_push`, lines 548-619) -/

/-- The fields of the parsed JSON reply read by the orchestrator:
`response_json.get('success')` and `response_json.get('status')`,
either of which may be absent. -/
structure StkBody where
  success : Option Bool
  status : Option String
deriving DecidableEq, Repr

/-- A gateway interaction: either an HTTP reply (with status code and a
parsed body, `none` when `response.json()` raises on a malformed body)
or a transport error raised by `requests.post`. -/
inductive GatewayResponse
  | reply (status_code : Nat) (body : Option StkBody)
  | transportError
deriving DecidableEq, Repr

/-- Python truthiness of `response_json.get('success')`: an absent key
yields `None`, which is falsy. -/
def truthy : Option Bool → Bool
  | some b => b
  | none => false

/-- The four user-facing outcomes of a charge. -/
inductive Outcome
  | success
  | pending
  | failed
  | error
deriving DecidableEq, Repr

/-- The branch structure of `initiate_stk_push`'s response handling:
`response.status_code in [200, 201]`, then `response_json.get('success')`,
then `status == 'SUCCESS'`; the `else` of the status-code test and the
`except` clause both surface an error message. -/
def classify_stk (r : GatewayResponse) : Outcome :=
  match r with
  | .transportError => .error
  | .reply code body =>
    if code = 200 ∨ code = 201 then
      match body with
      | none => .error
      | some b =>
        if truthy b.success then
          if b.status = some "SUCCESS" then .success else .pending
        else .failed
    else .error

/-! ## Conversation Engine (the main ConversationHandler, lines 203-546
and 870-914)

States `CHOOSING_PACKAGE`, `GETTING_PHONE`, `CONFIRMING_PURCHASE` plus
the implicit idle state (`ConversationHandler.END`).  The per-user
session is `context.user_data` with the keys the handlers use:
`package`, `package_key`, `phone_number`, `reference`, `last_message`.
Bot-authored messages get consecutive opaque ids from a counter so that
`last_message` handles can be compared.  The freshly generated
transaction reference (`generate_reference`) and the gateway response
are inputs of the step function (the environment supplies them).

Dispatch follows `main()`: in `CHOOSING_PACKAGE` the callback pattern
`^(data_\d+|section_header|support|bingwa_deals|normal_deals|back_to_categories)$`
routes to `choose_package` and `^cancel_purchase$` to `cancel_purchase`;
in `GETTING_PHONE` free text routes to `get_phone_number`; in
`CONFIRMING_PURCHASE` `^(confirm_purchase|change_phone)$` routes to
`handle_confirmation`; `/restart` is a fallback in every state; `/start`
and `/bundles` are entry points only (no standalone handler for them is
registered, so mid-conversation they are dropped); unmatched updates are
no-ops.  `conversation_timeout` ends the conversation; the
`timeout_end` handler is not registered, so the timeout clears no
session data. -/

/-- Conversation states; `idle` is `ConversationHandler.END`. -/
inductive ConvState
  | idle
  | choosingPackage
  | gettingPhone
  | confirmingPurchase
deriving DecidableEq, Repr

/-- `context.user_data` keys used by the handlers. -/
structure UserData where
  package : Option DataPackage
  package_key : Option String
  phone_number : Option String
  reference : Option String
  last_message : Option Nat
deriving DecidableEq, Repr

/-- `context.user_data.clear()`. -/
def UserData.empty : UserData := ⟨none, none, none, none, none⟩

/-- One per-user configuration: conversation state, session data, and
the fresh-message-id counter. -/
structure Config where
  state : ConvState
  ud : UserData
  nextMsg : Nat
deriving DecidableEq, Repr

/-- Observable side effects of one handled event. -/
inductive Effect
  | registerUser
  | send (id : Nat) (tag : String)
  | deleteMsg
  | payment (phone : Option String) (amount : Nat) (reference : String)
  | handlerCrash
deriving DecidableEq, Repr

/-- Inbound events delivered by the transport. -/
inductive Event
  | cmd_start
  | cmd_bundles
  | cmd_restart
  | button (d : String)
  | text (s : String)
  | timeout
deriving DecidableEq, Repr

/-- `show_bundles` (lines 249-274): registers the user, sends the
category menu and stores its handle, entering `CHOOSING_PACKAGE`. -/
def show_bundles (cfg : Config) : Config × List Effect :=
  let mid := cfg.nextMsg
  ({ state := .choosingPackage,
     ud := { cfg.ud with last_message := some mid },
     nextMsg := mid + 1 },
   [Effect.registerUser, Effect.send mid "categories_menu"])

/-- `start` (lines 205-227): registers the user, clears the session,
sends the welcome message, then runs `show_bundles`. -/
def start (cfg : Config) : Config × List Effect :=
  let mid := cfg.nextMsg
  let r := show_bundles { state := cfg.state, ud := UserData.empty, nextMsg := mid + 1 }
  (r.1, [Effect.registerUser, Effect.send mid "welcome"] ++ r.2)

/-- `restart_command` (lines 851-866): clears the session, sends the
restart acknowledgement, then runs `show_bundles`. -/
def restart_command (cfg : Config) : Config × List Effect :=
  let mid := cfg.nextMsg
  let r := show_bundles { state := cfg.state, ud := UserData.empty, nextMsg := mid + 1 }
  (r.1, [Effect.send mid "restart_ack"] ++ r.2)

/-- `cancel_purchase` (lines 661-673): sends the cancellation
acknowledgement and returns `ConversationHandler.END`; it does not touch
`context.user_data`. -/
def cancel_purchase (cfg : Config) : Config × List Effect :=
  ({ state := .idle, ud := cfg.ud, nextMsg := cfg.nextMsg + 1 },
   [Effect.send cfg.nextMsg "cancel_ack"])

/-- `show_bingwa_deals` / `show_normal_deals` / `back_to_categories`
(lines 276-386): delete the previous menu (best effort), send the new
menu and store its handle, staying in `CHOOSING_PACKAGE`. -/
def show_menu (tag : String) (cfg : Config) : Config × List Effect :=
  let mid := cfg.nextMsg
  ({ state := .choosingPackage,
     ud := { cfg.ud with last_message := some mid },
     nextMsg := mid + 1 },
   [Effect.deleteMsg, Effect.send mid tag])

/-- `handle_support_button` (lines 675-690): sends the support info and
stays in `CHOOSING_PACKAGE`; the session is untouched. -/
def handle_support_button (cfg : Config) : Config × List Effect :=
  ({ state := .choosingPackage, ud := cfg.ud, nextMsg := cfg.nextMsg + 1 },
   [Effect.send cfg.nextMsg "support_info"])

/-- `choose_package` (lines 388-436): navigation branches, then
`data_packages.get(choice)`; an unknown key re-prompts in place, a known
key stores `package`/`package_key`, deletes the menu, asks for the phone
number and moves to `GETTING_PHONE`. -/
def choose_package (d : String) (cfg : Config) : Config × List Effect :=
  if d = "back_to_categories" then show_menu "categories_menu" cfg
  else if d = "bingwa_deals" then show_menu "bingwa_menu" cfg
  else if d = "normal_deals" then show_menu "normal_menu" cfg
  else if d = "support" then handle_support_button cfg
  else if d = "cancel_purchase" then cancel_purchase cfg
  else
    match lookupPackage d with
    | none =>
      ({ state := .choosingPackage, ud := cfg.ud, nextMsg := cfg.nextMsg + 1 },
       [Effect.send cfg.nextMsg "invalid_selection"])
    | some p =>
      let mid := cfg.nextMsg
      ({ state := .gettingPhone,
         ud := { cfg.ud with package := some p, package_key := some d, last_message := some mid },
         nextMsg := mid + 1 },
       [Effect.deleteMsg, Effect.send mid "ask_phone"])

/-- `get_phone_number` (lines 438-492): delete the stored last message
if any (the handle itself stays in the session), validate the input; on
failure re-prompt in `GETTING_PHONE` with the session untouched; with no
stored package end the conversation; otherwise store the normalized
phone, send the purchase summary and move to `CONFIRMING_PURCHASE`. -/
def get_phone_number (s : String) (cfg : Config) : Config × List Effect :=
  let delEffs : List Effect :=
    match cfg.ud.last_message with
    | some _ => [Effect.deleteMsg]
    | none => []
  match is_valid_phone_number s with
  | none =>
    ({ state := .gettingPhone, ud := cfg.ud, nextMsg := cfg.nextMsg + 1 },
     delEffs ++ [Effect.send cfg.nextMsg "invalid_phone"])
  | some formatted =>
    match cfg.ud.package with
    | none =>
      ({ state := .idle, ud := cfg.ud, nextMsg := cfg.nextMsg + 1 },
       delEffs ++ [Effect.send cfg.nextMsg "no_package"])
    | some _ =>
      ({ state := .confirmingPurchase,
         ud := { cfg.ud with phone_number := some formatted },
         nextMsg := cfg.nextMsg + 1 },
       delEffs ++ [Effect.send cfg.nextMsg "purchase_summary"])

/-- `initiate_stk_push` (lines 548-619): posts the payload
(amount, phone, channel 2486, provider m-pesa, reference, callback) once
and sends the outcome message chosen by the response classification. -/
def initiate_stk_push (phone : Option String) (amount : Nat) (reference : String)
    (resp : GatewayResponse) (mid : Nat) : List Effect :=
  let tag :=
    match classify_stk resp with
    | .success => "payment_successful"
    | .pending => "payment_processing"
    | .failed => "payment_failed"
    | .error => "payment_error"
  [Effect.payment phone amount reference, Effect.send mid tag]

/-- `handle_confirmation` (lines 494-546): on `change_phone`, re-prompt
for a phone number (storing the new prompt handle) and return to
`GETTING_PHONE` with the rest of the session untouched; otherwise store
a fresh reference, send the confirmed-purchase summary, run
`initiate_stk_push` once, and end the conversation.  With no stored
package the summary f-string raises (`selected_package.display_name` on
`None`) after the reference was stored, and the conversation state is
left unchanged. -/
def handle_confirmation (d : String) (ref : String) (resp : GatewayResponse)
    (cfg : Config) : Config × List Effect :=
  if d = "change_phone" then
    let mid := cfg.nextMsg
    ({ state := .gettingPhone,
       ud := { cfg.ud with last_message := some mid },
       nextMsg := mid + 1 },
     [Effect.deleteMsg, Effect.send mid "ask_phone_again"])
  else
    match cfg.ud.package with
    | none =>
      ({ state := cfg.state,
         ud := { cfg.ud with reference := some ref },
         nextMsg := cfg.nextMsg },
       [Effect.deleteMsg, Effect.handlerCrash])
    | some p =>
      let mid := cfg.nextMsg
      ({ state := .idle,
         ud := { cfg.ud with reference := some ref },
         nextMsg := mid + 2 },
       [Effect.deleteMsg, Effect.send mid "purchase_confirmed"] ++
         initiate_stk_push cfg.ud.phone_number p.price ref resp (mid + 1))

/-- `data_\d+`: the literal prefix `data_` followed by one or more
digits. -/
def isDataKeyChars : List Char → Bool
  | 'd' :: 'a' :: 't' :: 'a' :: '_' :: rest => rest.length ≠ 0 && isDigits rest
  | _ => false

/-- Does a callback-data string match
`^(data_\d+|section_header|support|bingwa_deals|normal_deals|back_to_categories)$`? -/
def matchesChoosePattern (d : String) : Bool :=
  d = "section_header" || d = "support" || d = "bingwa_deals" ||
  d = "normal_deals" || d = "back_to_categories" || isDataKeyChars d.data

/-- One dispatch step of the main ConversationHandler: entry points from
idle, per-state handlers, `/restart` and `cancel_purchase` fallbacks,
timeout, and no-ops for unmatched updates. -/
def step (ref : String) (resp : GatewayResponse) (cfg : Config) (ev : Event) :
    Config × List Effect :=
  match cfg.state, ev with
  | .idle, .cmd_start => start cfg
  | .idle, .cmd_bundles => show_bundles cfg
  | .idle, .cmd_restart => restart_command cfg
  | .idle, _ => (cfg, [])
  | _, .cmd_restart => restart_command cfg
  | _, .timeout => ({ state := .idle, ud := cfg.ud, nextMsg := cfg.nextMsg }, [])
  | .choosingPackage, .button d =>
    if matchesChoosePattern d then choose_package d cfg
    else if d = "cancel_purchase" then cancel_purchase cfg
    else (cfg, [])
  | .choosingPackage, _ => (cfg, [])
  | .gettingPhone, .text s => get_phone_number s cfg
  | .gettingPhone, .button d =>
    if d = "cancel_purchase" then cancel_purchase cfg else (cfg, [])
  | .gettingPhone, _ => (cfg, [])
  | .confirmingPurchase, .button d =>
    if d = "confirm_purchase" || d = "change_phone" then
      handle_confirmation d ref resp cfg
    else if d = "cancel_purchase" then cancel_purchase cfg
    else (cfg, [])
  | .confirmingPurchase, _ => (cfg, [])

/-- Configurations reachable from a fresh session. -/
inductive Reachable : Config → Prop
  | init : Reachable ⟨.idle, UserData.empty, 0⟩
  | step (ref : String) (resp : GatewayResponse) (ev : Event) {cfg : Config} :
      Reachable cfg → Reachable (step ref resp cfg ev).1

/-- The payment effects among an effect list. -/
def payments (effs : List Effect) : List Effect :=
  effs.filter (fun e => match e with | Effect.payment _ _ _ => true | _ => false)

/-- The stored records carrying a given id. -/
def recordsFor (v : String) (db : List UserRecord) : List UserRecord :=
  db.filter (fun r => r.id = v)

/-- The attempted ids among broadcast events, in order. -/
def battempts (evs : List BEvent) : List String :=
  evs.filterMap (fun e => match e with | BEvent.attempt i => some i | _ => none)

/-- The progress-update values among broadcast events, in order. -/
def bprogress (evs : List BEvent) : List Nat :=
  evs.filterMap (fun e => match e with | BEvent.progress n => some n | _ => none)

/-- The concrete directory of the specified scenario: 25 users of which
the 7th and the 18th fail. -/
def scenarioUsers : List (String × Bool) :=
  (List.range 25).map (fun i => (Nat.repr i, decide (i ≠ 6 ∧ i ≠ 17)))

/-- The inductive session invariant: any stored package comes from the
catalog, any stored phone number is a normalizer output, and in the
ConfirmingPurchase state both are present. -/
def SessionInv (cfg : Config) : Prop :=
  (∀ pkg, cfg.ud.package = some pkg → ∃ k, (k, pkg) ∈ data_packages) ∧
  (∀ p, cfg.ud.phone_number = some p → ∃ s, is_valid_phone_number s = some p) ∧
  (cfg.state = ConvState.confirmingPurchase →
    cfg.ud.package.isSome ∧ cfg.ud.phone_number.isSome)

/-! ## Theorems -/

/-- C2: the Payment Orchestrator's interpretation of the gateway reply
is a total four-way case split: an HTTP success status (200 or 201)
together with a set application-level success flag and inner status
`"SUCCESS"` yields Success; a set success flag with any other inner
status yields Pending; a falsy success flag (absent, i.e. `get` returns
`None`, or `false`) yields Failed; a non-success HTTP status, a
transport error, or a malformed response yields Error. -/
theorem stk_response_classification :
    (∀ code b, (code = 200 ∨ code = 201) → truthy b.success = true →
        b.status = some "SUCCESS" →
        classify_stk (.reply code (some b)) = .success) ∧
    (∀ code b, (code = 200 ∨ code = 201) → truthy b.success = true →
        b.status ≠ some "SUCCESS" →
        classify_stk (.reply code (some b)) = .pending) ∧
    (∀ code b, (code = 200 ∨ code = 201) → truthy b.success = false →
        classify_stk (.reply code (some b)) = .failed) ∧
    (∀ code body, ¬(code = 200 ∨ code = 201) →
        classify_stk (.reply code body) = .error) ∧
    (∀ code, classify_stk (.reply code none) = .error) ∧
    classify_stk .transportError = .error := by
  refine ⟨?_, ?_, ?_, ?_, ?_, rfl⟩
  · intro code b hc hs hst
    simp [classify_stk, hc, hs, hst]
  · intro code b hc hs hst
    simp [classify_stk, hc, hs, hst]
  · intro code b hc hs
    simp [classify_stk, hc, hs]
  · intro code body hc
    simp [classify_stk, hc]
  · intro code
    by_cases hc : code = 200 ∨ code = 201 <;> simp [classify_stk, hc]

/-- Witness for C2: the four concrete gateway replies of the case split,
classified by the theorem. -/
theorem stk_response_classification_witness :
    classify_stk (.reply 200 (some ⟨some true, some "SUCCESS"⟩)) = .success ∧
    classify_stk (.reply 200 (some ⟨some true, some "QUEUED"⟩)) = .pending ∧
    classify_stk (.reply 201 (some ⟨none, some "SUCCESS"⟩)) = .failed ∧
    classify_stk (.reply 500 (some ⟨some true, some "SUCCESS"⟩)) = .error :=
  ⟨stk_response_classification.1 200 ⟨some true, some "SUCCESS"⟩ (Or.inl rfl) rfl rfl,
   stk_response_classification.2.1 200 ⟨some true, some "QUEUED"⟩ (Or.inl rfl) rfl (by decide),
   stk_response_classification.2.2.1 201 ⟨none, some "SUCCESS"⟩ (Or.inr rfl) rfl,
   stk_response_classification.2.2.2.1 500 _ (by decide)⟩

/-- C9: the numeric-suffix rule (suffix at most 8 is Bingwa, above 8 is
Normal) partitions the catalog: every key lies in exactly one of the two
categories, the categories are disjoint, and together they cover all
keys. -/
theorem category_rule_partitions_catalog :
    (∀ k, k ∈ package_keys → (k ∈ bingwa_keys ↔ k ∉ normal_keys)) ∧
    (∀ k, k ∈ bingwa_keys → k ∈ package_keys) ∧
    (∀ k, k ∈ normal_keys → k ∈ package_keys) ∧
    (∀ k, k ∈ package_keys → k ∈ bingwa_keys ∨ k ∈ normal_keys) := by
  refine ⟨?_, ?_, ?_, ?_⟩ <;> decide

/-- Witness for C9: the concrete key `data_10` is in the catalog and is
covered by the two categories. -/
theorem category_rule_partitions_catalog_witness :
    "data_10" ∈ bingwa_keys ∨ "data_10" ∈ normal_keys :=
  category_rule_partitions_catalog.2.2.2 "data_10" (by decide)

/-- Unfolding: a matching head record is included. -/
theorem recordsFor_cons_hit (v : String) (r : UserRecord) (rs : List UserRecord)
    (h : r.id = v) : recordsFor v (r :: rs) = r :: recordsFor v rs := by
  simp [recordsFor, List.filter_cons, h]

/-- Unfolding: a non-matching head record is skipped. -/
theorem recordsFor_cons_miss (v : String) (r : UserRecord) (rs : List UserRecord)
    (h : r.id ≠ v) : recordsFor v (r :: rs) = recordsFor v rs := by
  simp [recordsFor, List.filter_cons, h]

/-- Unfolding: `register_user` updates the first record with the same id. -/
theorem register_user_cons_found (u : TgUser) (now : Nat) (r : UserRecord)
    (rs : List UserRecord) (h : r.id = u.id) :
    register_user u now (r :: rs) =
      { r with username := u.username, first_name := u.first_name,
               last_name := u.last_name, last_active := now } :: rs := by
  simp [register_user, h]

/-- Unfolding: `register_user` passes over a record with another id. -/
theorem register_user_cons_miss (u : TgUser) (now : Nat) (r : UserRecord)
    (rs : List UserRecord) (h : r.id ≠ u.id) :
    register_user u now (r :: rs) = r :: register_user u now rs := by
  simp [register_user, h]

/-- Registering a user leaves the records of every other id untouched. -/
theorem recordsFor_register_ne (u : TgUser) (now : Nat) (v : String)
    (hv : v ≠ u.id) :
    ∀ db : List UserRecord, recordsFor v (register_user u now db) = recordsFor v db := by
  intro db
  induction db with
  | nil => simp [register_user, recordsFor, Ne.symm hv]
  | cons r rs ih =>
    by_cases hr : r.id = u.id
    · have hrv : r.id ≠ v := by rw [hr]; exact Ne.symm hv
      rw [register_user_cons_found u now r rs hr,
          recordsFor_cons_miss v r rs hrv]
      exact recordsFor_cons_miss v _ rs hrv
    · rw [register_user_cons_miss u now r rs hr]
      by_cases hrv : r.id = v
      · rw [recordsFor_cons_hit v r _ hrv, recordsFor_cons_hit v r rs hrv, ih]
      · rw [recordsFor_cons_miss v r _ hrv, recordsFor_cons_miss v r rs hrv]
        exact ih

/-- Registering a user whose id is absent appends one fresh record. -/
theorem recordsFor_register_new (u : TgUser) (now : Nat)
    (db : List UserRecord) (h : ∀ r ∈ db, r.id ≠ u.id) :
    recordsFor u.id (register_user u now db) =
      [⟨u.id, u.username, u.first_name, u.last_name, now, now⟩] := by
  induction db with
  | nil => simp [register_user, recordsFor, List.filter_cons]
  | cons r rs ih =>
    have hr : r.id ≠ u.id := h r (List.mem_cons_self r rs)
    rw [register_user_cons_miss u now r rs hr,
        recordsFor_cons_miss u.id r _ hr]
    exact ih (fun r2 hm => h r2 (List.mem_cons_of_mem r hm))

/-- Registering a user whose id has exactly one stored record updates
that record's name fields and `last_active`, keeping `joined`. -/
theorem recordsFor_register_found (u : TgUser) (now : Nat)
    (db : List UserRecord) (r0 : UserRecord)
    (h : recordsFor u.id db = [r0]) :
    recordsFor u.id (register_user u now db) =
      [{ r0 with username := u.username, first_name := u.first_name,
                 last_name := u.last_name, last_active := now }] := by
  induction db with
  | nil => simp [recordsFor] at h
  | cons r rs ih =>
    by_cases hr : r.id = u.id
    · rw [recordsFor_cons_hit u.id r rs hr] at h
      have hcons := List.cons_eq_cons.mp h
      rw [register_user_cons_found u now r rs hr,
          recordsFor_cons_hit u.id
            { r with username := u.username, first_name := u.first_name,
                     last_name := u.last_name, last_active := now } rs hr,
          hcons.2, hcons.1]
    · rw [recordsFor_cons_miss u.id r rs hr] at h
      rw [register_user_cons_miss u now r rs hr,
          recordsFor_cons_miss u.id r _ hr]
      exact ih h

/-- C7: User Directory upsert is idempotent on identity.  Starting from
a directory that does not contain the id, registering the same id twice
with different display names leaves exactly one record for that id; it
carries the latest name fields and last-active timestamp and the joined
timestamp of the first registration; records of every other id are
untouched by both registrations. -/
theorem register_user_upsert_idempotent (u1 u2 : TgUser) (t1 t2 : Nat)
    (db : List UserRecord)
    (habsent : ∀ r ∈ db, r.id ≠ u1.id)
    (hid : u2.id = u1.id)
    (hname : u1.first_name ≠ u2.first_name) :
    recordsFor u1.id (register_user u2 t2 (register_user u1 t1 db)) =
      [⟨u1.id, u2.username, u2.first_name, u2.last_name, t1, t2⟩] ∧
    (∀ v, v ≠ u1.id →
      recordsFor v (register_user u2 t2 (register_user u1 t1 db)) =
        recordsFor v db) := by
  have h1 : recordsFor u1.id (register_user u1 t1 db) =
      [⟨u1.id, u1.username, u1.first_name, u1.last_name, t1, t1⟩] :=
    recordsFor_register_new u1 t1 db habsent
  constructor
  · have h2 := recordsFor_register_found u2 t2 (register_user u1 t1 db)
      ⟨u1.id, u1.username, u1.first_name, u1.last_name, t1, t1⟩ (by rw [hid]; exact h1)
    rw [hid] at h2
    exact h2
  · intro v hv
    rw [recordsFor_register_ne u2 t2 v (by rw [hid]; exact hv),
        recordsFor_register_ne u1 t1 v hv]

/-- Witness for C7: a concrete double registration of id `"1001"` with a
changed first name into an empty directory. -/
theorem register_user_upsert_idempotent_witness :
    recordsFor "1001"
        (register_user ⟨"1001", some "alice", some "Alicia", none⟩ 20
          (register_user ⟨"1001", some "alice", some "Alice", none⟩ 10 [])) =
      [⟨"1001", some "alice", some "Alicia", none, 10, 20⟩] :=
  (register_user_upsert_idempotent
    ⟨"1001", some "alice", some "Alice", none⟩
    ⟨"1001", some "alice", some "Alicia", none⟩ 10 20 []
    (by simp) rfl (by decide)).1

/-- The loop's final counters: successes and failures are added to the
incoming accumulators. -/
theorem broadcastLoop_counts (us : List (String × Bool)) :
    ∀ s f, (broadcastLoop us s f).2 =
      (s + us.countP (fun u => u.2), f + us.countP (fun u => !u.2)) := by
  induction us with
  | nil => intro s f; simp [broadcastLoop]
  | cons u rest ih =>
    intro s f
    obtain ⟨uid, ok⟩ := u
    cases ok with
    | true =>
      simp only [broadcastLoop, if_pos rfl, ih (s + 1) f, List.countP_cons]
      simp
      omega
    | false =>
      simp only [broadcastLoop, Bool.false_eq_true, if_neg, ih s (f + 1),
        List.countP_cons]
      simp
      omega

/-- Every listed user is attempted exactly once, in order. -/
theorem broadcastLoop_attempts (us : List (String × Bool)) :
    ∀ s f, battempts (broadcastLoop us s f).1 = us.map Prod.fst := by
  induction us with
  | nil => intro s f; simp [broadcastLoop, battempts]
  | cons u rest ih =>
    intro s f
    obtain ⟨uid, ok⟩ := u
    cases ok with
    | true =>
      by_cases h10 : (s + 1) % 10 = 0 <;>
        simp [broadcastLoop, h10, battempts, List.filterMap_append] <;>
        simpa [battempts] using ih (s + 1) f
    | false =>
      simp [broadcastLoop, battempts]
      simpa [battempts] using ih s (f + 1)

/-- Progress updates are exactly the multiples of ten among the running
success count. -/
theorem broadcastLoop_progress (us : List (String × Bool)) :
    ∀ s f, bprogress (broadcastLoop us s f).1 =
      (List.range' (s + 1) (us.countP (fun u => u.2))).filter (fun n => n % 10 = 0) := by
  induction us with
  | nil => intro s f; simp [broadcastLoop, bprogress]
  | cons u rest ih =>
    intro s f
    obtain ⟨uid, ok⟩ := u
    cases ok with
    | true =>
      have hr : List.range' (s + 1) (rest.countP (fun u => u.2) + 1) =
          (s + 1) :: List.range' (s + 2) (rest.countP (fun u => u.2)) := by
        simp [List.range'_succ]
      by_cases h10 : (s + 1) % 10 = 0 <;>
        · simp [broadcastLoop, h10, bprogress, List.filterMap_append, List.countP_cons,
            hr, List.filter_cons]
          simpa [bprogress] using ih (s + 1) f
    | false =>
      simp [broadcastLoop, bprogress, List.countP_cons]
      simpa [bprogress] using ih s (f + 1)

/-- C8: on a broadcast with a nonempty directory, every user profile is
attempted exactly once and in order (so an individual failure never
aborts the remaining sends); a progress update is emitted exactly at
every tenth successful delivery; and the final tally reports the number
sent and the number failed. -/
theorem admin_broadcast_attempts_and_tally (users : List (String × Bool))
    (h : users ≠ []) :
    battempts (admin_broadcast users).1 = users.map Prod.fst ∧
    (admin_broadcast users).2.1 = users.countP (fun u => u.2) ∧
    (admin_broadcast users).2.2 = users.countP (fun u => !u.2) ∧
    BEvent.finalTally (users.countP (fun u => u.2)) (users.countP (fun u => !u.2))
      ∈ (admin_broadcast users).1 ∧
    bprogress (admin_broadcast users).1 =
      (List.range' 1 (users.countP (fun u => u.2))).filter (fun n => n % 10 = 0) := by
  have hne : users.isEmpty = false := by
    cases users with
    | nil => exact absurd rfl h
    | cons a l => rfl
  have hc := broadcastLoop_counts users 0 0
  refine ⟨?_, ?_, ?_, ?_, ?_⟩
  · simp [admin_broadcast, hne, battempts, List.filterMap_append,
      broadcastLoop_attempts users 0 0]
    simpa [battempts] using broadcastLoop_attempts users 0 0
  · simp [admin_broadcast, hne, hc]
  · simp [admin_broadcast, hne, hc]
  · simp [admin_broadcast, hne, hc]
  · simp [admin_broadcast, hne, bprogress, List.filterMap_append]
    simpa [bprogress] using broadcastLoop_progress users 0 0


/-- Witness for C8: in the 25-user scenario with 2 delivery failures the
final tally is 23 sent and 2 failed, every user was attempted exactly
once, and progress updates fired at deliveries 10 and 20. -/
theorem admin_broadcast_attempts_and_tally_witness :
    (admin_broadcast scenarioUsers).2.1 = 23 ∧
    (admin_broadcast scenarioUsers).2.2 = 2 ∧
    battempts (admin_broadcast scenarioUsers).1 = scenarioUsers.map Prod.fst ∧
    bprogress (admin_broadcast scenarioUsers).1 = [10, 20] := by
  have h := admin_broadcast_attempts_and_tally scenarioUsers (by decide)
  exact ⟨h.2.1.trans (by decide), h.2.2.1.trans (by decide), h.1,
    h.2.2.2.2.trans (by decide)⟩

/-- C1: pressing `confirm_purchase` in the ConfirmingPurchase state
issues exactly one charge request, whose amount is the selected offer's
price and whose phone number is the stored normalized phone, with the
freshly generated reference (which is also stored in the session); the
charge is not retried, and the conversation returns to Idle for every
gateway outcome (the statement is quantified over all responses). -/
theorem confirm_purchase_single_charge (ref : String) (resp : GatewayResponse)
    (cfg : Config) (pkg : DataPackage) (p : String)
    (hs : cfg.state = ConvState.confirmingPurchase)
    (hpkg : cfg.ud.package = some pkg)
    (hph : cfg.ud.phone_number = some p) :
    payments (step ref resp cfg (.button "confirm_purchase")).2 =
      [Effect.payment (some p) pkg.price ref] ∧
    (step ref resp cfg (.button "confirm_purchase")).1.state = ConvState.idle ∧
    (step ref resp cfg (.button "confirm_purchase")).1.ud.reference = some ref := by
  obtain ⟨st, ud, n⟩ := cfg
  simp only at hs hpkg hph
  subst hs
  simp [step, handle_confirmation, hpkg, hph, initiate_stk_push, payments,
    List.filter_cons]

/-- Witness for C1: a concrete confirmation of `data_1` at phone
`254712345678` under a transport error. -/
theorem confirm_purchase_single_charge_witness :
    payments (step "BINGWA-20240101120000-abcd1234" GatewayResponse.transportError
        ⟨ConvState.confirmingPurchase,
         ⟨some ⟨"1.25GB till midnight @ Ksh 55", 55, "1.25GB", "Until midnight",
                "Same day data bundle"⟩,
          some "data_1", some "254712345678", none, some 3⟩, 4⟩
        (.button "confirm_purchase")).2 =
      [Effect.payment (some "254712345678") 55 "BINGWA-20240101120000-abcd1234"] ∧
    (step "BINGWA-20240101120000-abcd1234" GatewayResponse.transportError
        ⟨ConvState.confirmingPurchase,
         ⟨some ⟨"1.25GB till midnight @ Ksh 55", 55, "1.25GB", "Until midnight",
                "Same day data bundle"⟩,
          some "data_1", some "254712345678", none, some 3⟩, 4⟩
        (.button "confirm_purchase")).1.state = ConvState.idle ∧
    (step "BINGWA-20240101120000-abcd1234" GatewayResponse.transportError
        ⟨ConvState.confirmingPurchase,
         ⟨some ⟨"1.25GB till midnight @ Ksh 55", 55, "1.25GB", "Until midnight",
                "Same day data bundle"⟩,
          some "data_1", some "254712345678", none, some 3⟩, 4⟩
        (.button "confirm_purchase")).1.ud.reference =
      some "BINGWA-20240101120000-abcd1234" :=
  confirm_purchase_single_charge "BINGWA-20240101120000-abcd1234"
    GatewayResponse.transportError
    ⟨ConvState.confirmingPurchase,
     ⟨some ⟨"1.25GB till midnight @ Ksh 55", 55, "1.25GB", "Until midnight",
            "Same day data bundle"⟩,
      some "data_1", some "254712345678", none, some 3⟩, 4⟩
    ⟨"1.25GB till midnight @ Ksh 55", 55, "1.25GB", "Until midnight",
     "Same day data bundle"⟩
    "254712345678" rfl rfl rfl

/-- Counterexample for C3 as stated: from a concrete ConfirmingPurchase
session, `cancel_purchase` does reach Idle but the session data is not
cleared — the selected package, phone number and last message handle all
survive. -/
theorem cancel_purchase_counterexample :
    (step "r" GatewayResponse.transportError
        ⟨ConvState.confirmingPurchase,
         ⟨some ⟨"1GB for 1hr @ Ksh 19", 19, "1GB", "1 Hour", "Hourly data bundle"⟩,
          some "data_3", some "254712345678", none, some 3⟩, 4⟩
        (.button "cancel_purchase")).1.state = ConvState.idle ∧
    (step "r" GatewayResponse.transportError
        ⟨ConvState.confirmingPurchase,
         ⟨some ⟨"1GB for 1hr @ Ksh 19", 19, "1GB", "1 Hour", "Hourly data bundle"⟩,
          some "data_3", some "254712345678", none, some 3⟩, 4⟩
        (.button "cancel_purchase")).1.ud ≠ UserData.empty ∧
    (step "r" GatewayResponse.transportError
        ⟨ConvState.confirmingPurchase,
         ⟨some ⟨"1GB for 1hr @ Ksh 19", 19, "1GB", "1 Hour", "Hourly data bundle"⟩,
          some "data_3", some "254712345678", none, some 3⟩, 4⟩
        (.button "cancel_purchase")).1.ud.package ≠ none := by
  refine ⟨rfl, ?_, ?_⟩ <;> decide

/-- C3 amended: from every conversation state, `cancel_purchase`
transitions the session to Idle and emits a cancellation
acknowledgement, but the per-user session data is left unchanged, not
cleared (clearing happens only on `/start`, `/restart`). -/
theorem cancel_purchase_to_idle_session_kept (ref : String)
    (resp : GatewayResponse) (cfg : Config)
    (h : cfg.state = ConvState.choosingPackage ∨
         cfg.state = ConvState.gettingPhone ∨
         cfg.state = ConvState.confirmingPurchase) :
    (step ref resp cfg (.button "cancel_purchase")).1.state = ConvState.idle ∧
    (step ref resp cfg (.button "cancel_purchase")).1.ud = cfg.ud ∧
    (step ref resp cfg (.button "cancel_purchase")).2 =
      [Effect.send cfg.nextMsg "cancel_ack"] := by
  obtain ⟨st, ud, n⟩ := cfg
  have hm : matchesChoosePattern "cancel_purchase" = false := by decide
  rcases h with h | h | h <;> (simp only at h; subst h; simp [step, hm, cancel_purchase])

/-- Witness for C3 amended: cancelling from a concrete EnteringPhone
session. -/
theorem cancel_purchase_to_idle_session_kept_witness :
    (step "r" GatewayResponse.transportError
        ⟨ConvState.gettingPhone,
         ⟨some ⟨"1GB for 1hr @ Ksh 19", 19, "1GB", "1 Hour", "Hourly data bundle"⟩,
          some "data_3", none, none, some 2⟩, 3⟩
        (.button "cancel_purchase")).1.state = ConvState.idle ∧
    (step "r" GatewayResponse.transportError
        ⟨ConvState.gettingPhone,
         ⟨some ⟨"1GB for 1hr @ Ksh 19", 19, "1GB", "1 Hour", "Hourly data bundle"⟩,
          some "data_3", none, none, some 2⟩, 3⟩
        (.button "cancel_purchase")).1.ud =
      ⟨some ⟨"1GB for 1hr @ Ksh 19", 19, "1GB", "1 Hour", "Hourly data bundle"⟩,
       some "data_3", none, none, some 2⟩ ∧
    (step "r" GatewayResponse.transportError
        ⟨ConvState.gettingPhone,
         ⟨some ⟨"1GB for 1hr @ Ksh 19", 19, "1GB", "1 Hour", "Hourly data bundle"⟩,
          some "data_3", none, none, some 2⟩, 3⟩
        (.button "cancel_purchase")).2 = [Effect.send 3 "cancel_ack"] :=
  cancel_purchase_to_idle_session_kept "r" GatewayResponse.transportError _
    (Or.inr (Or.inl rfl))

/-- Counterexample for C4 as stated: on a concrete `change_phone` from
ConfirmingPurchase, the stored phone number is not discarded (it remains
set) and the last-message handle, another session field, is modified. -/
theorem change_phone_counterexample :
    (step "r" GatewayResponse.transportError
        ⟨ConvState.confirmingPurchase,
         ⟨some ⟨"1GB for 1hr @ Ksh 19", 19, "1GB", "1 Hour", "Hourly data bundle"⟩,
          some "data_3", some "254712345678", none, some 3⟩, 4⟩
        (.button "change_phone")).1.ud.phone_number ≠ none ∧
    (step "r" GatewayResponse.transportError
        ⟨ConvState.confirmingPurchase,
         ⟨some ⟨"1GB for 1hr @ Ksh 19", 19, "1GB", "1 Hour", "Hourly data bundle"⟩,
          some "data_3", some "254712345678", none, some 3⟩, 4⟩
        (.button "change_phone")).1.ud.last_message ≠ some 3 := by
  refine ⟨?_, ?_⟩ <;> decide

/-- C4 amended: `change_phone` in ConfirmingPurchase always returns to
EnteringPhone with the stored selectedOffer unchanged; the stored phone
number is retained, not cleared (it is only overwritten by the next
valid entry), the package key and reference are unchanged, and the
last-message handle is updated to the new prompt. -/
theorem change_phone_to_entering_phone (ref : String) (resp : GatewayResponse)
    (cfg : Config) (hs : cfg.state = ConvState.confirmingPurchase) :
    (step ref resp cfg (.button "change_phone")).1.state = ConvState.gettingPhone ∧
    (step ref resp cfg (.button "change_phone")).1.ud.package = cfg.ud.package ∧
    (step ref resp cfg (.button "change_phone")).1.ud.phone_number = cfg.ud.phone_number ∧
    (step ref resp cfg (.button "change_phone")).1.ud.package_key = cfg.ud.package_key ∧
    (step ref resp cfg (.button "change_phone")).1.ud.reference = cfg.ud.reference ∧
    (step ref resp cfg (.button "change_phone")).1.ud.last_message = some cfg.nextMsg := by
  obtain ⟨st, ud, n⟩ := cfg
  simp only at hs
  subst hs
  simp [step, handle_confirmation]

/-- Witness for C4 amended: a concrete `change_phone` press. -/
theorem change_phone_to_entering_phone_witness :
    (step "r" GatewayResponse.transportError
        ⟨ConvState.confirmingPurchase,
         ⟨some ⟨"1GB for 1hr @ Ksh 19", 19, "1GB", "1 Hour", "Hourly data bundle"⟩,
          some "data_3", some "254712345678", none, some 3⟩, 4⟩
        (.button "change_phone")).1.state = ConvState.gettingPhone ∧
    (step "r" GatewayResponse.transportError
        ⟨ConvState.confirmingPurchase,
         ⟨some ⟨"1GB for 1hr @ Ksh 19", 19, "1GB", "1 Hour", "Hourly data bundle"⟩,
          some "data_3", some "254712345678", none, some 3⟩, 4⟩
        (.button "change_phone")).1.ud.package =
      some ⟨"1GB for 1hr @ Ksh 19", 19, "1GB", "1 Hour", "Hourly data bundle"⟩ :=
  ⟨(change_phone_to_entering_phone "r" GatewayResponse.transportError _ rfl).1,
   (change_phone_to_entering_phone "r" GatewayResponse.transportError _ rfl).2.1⟩

/-- C6: in EnteringPhone, a free-text input that fails phone
normalization re-prompts with the state unchanged, the session data
untouched (in particular the selected offer), and no payment call
issued. -/
theorem invalid_phone_reprompts (ref : String) (resp : GatewayResponse)
    (cfg : Config) (s : String)
    (hs : cfg.state = ConvState.gettingPhone)
    (hv : is_valid_phone_number s = none) :
    (step ref resp cfg (.text s)).1.state = ConvState.gettingPhone ∧
    (step ref resp cfg (.text s)).1.ud = cfg.ud ∧
    payments (step ref resp cfg (.text s)).2 = [] ∧
    Effect.send cfg.nextMsg "invalid_phone" ∈ (step ref resp cfg (.text s)).2 := by
  obtain ⟨st, ud, n⟩ := cfg
  simp only at hs
  subst hs
  cases hlm : ud.last_message <;>
    simp [step, get_phone_number, hv, hlm, payments, List.filter_cons]

/-- Witness for C6: the concrete rejected input `abc123` in a session
that selected `data_3`. -/
theorem invalid_phone_reprompts_witness :
    (step "r" GatewayResponse.transportError
        ⟨ConvState.gettingPhone,
         ⟨some ⟨"1GB for 1hr @ Ksh 19", 19, "1GB", "1 Hour", "Hourly data bundle"⟩,
          some "data_3", none, none, some 2⟩, 3⟩
        (.text "abc123")).1.state = ConvState.gettingPhone ∧
    (step "r" GatewayResponse.transportError
        ⟨ConvState.gettingPhone,
         ⟨some ⟨"1GB for 1hr @ Ksh 19", 19, "1GB", "1 Hour", "Hourly data bundle"⟩,
          some "data_3", none, none, some 2⟩, 3⟩
        (.text "abc123")).1.ud =
      ⟨some ⟨"1GB for 1hr @ Ksh 19", 19, "1GB", "1 Hour", "Hourly data bundle"⟩,
       some "data_3", none, none, some 2⟩ ∧
    payments (step "r" GatewayResponse.transportError
        ⟨ConvState.gettingPhone,
         ⟨some ⟨"1GB for 1hr @ Ksh 19", 19, "1GB", "1 Hour", "Hourly data bundle"⟩,
          some "data_3", none, none, some 2⟩, 3⟩
        (.text "abc123")).2 = [] :=
  ⟨(invalid_phone_reprompts "r" GatewayResponse.transportError _ "abc123" rfl (by decide)).1,
   (invalid_phone_reprompts "r" GatewayResponse.transportError _ "abc123" rfl (by decide)).2.1,
   (invalid_phone_reprompts "r" GatewayResponse.transportError _ "abc123" rfl (by decide)).2.2.1⟩

/-- A digit is not a separator. -/
theorem sepChar_of_isDigitChar (c : Char) (h : isDigitChar c = true) :
    sepChar c = false := by
  simp only [isDigitChar, Bool.and_eq_true, decide_eq_true_eq] at h
  simp only [sepChar]
  simp only [Bool.or_eq_false_iff, decide_eq_false_iff_not]
  omega

/-- The capture group succeeds exactly on the lead digit followed by
eight digits, and returns its input. -/
theorem matchTail_eq_some (lead : Char) (cs g : List Char)
    (h : matchTail lead cs = some g) :
    g = cs ∧ ∃ ds, cs = lead :: ds ∧ ds.length = 8 ∧ isDigits ds = true := by
  cases cs with
  | nil => simp [matchTail] at h
  | cons c rest =>
    simp only [matchTail] at h
    split at h
    · next hcond =>
      simp only [Bool.and_eq_true, decide_eq_true_eq] at hcond
      obtain ⟨⟨hc, h8⟩, hd⟩ := hcond
      cases h
      exact ⟨rfl, rest, by rw [hc], h8, hd⟩
    · exact absurd h (by simp)

/-- Success of the group on its canonical input. -/
theorem matchTail_self (lead : Char) (ds : List Char)
    (h8 : ds.length = 8) (hd : isDigits ds = true) :
    matchTail lead (lead :: ds) = some (lead :: ds) := by
  simp [matchTail, h8, hd]

/-- Inverting `Option.orElse`. -/
theorem orElse_eq_some {α : Type} {a : Option α} {f : Unit → Option α} {v : α}
    (h : a.orElse f = some v) : a = some v ∨ f () = some v := by
  cases a with
  | none => right; simpa [Option.orElse] using h
  | some x => left; simpa [Option.orElse] using h

/-- Inverting the international patterns. -/
theorem matchIntl_eq_some (lead : Char) (cs g : List Char)
    (h : matchIntl lead cs = some g) :
    ∃ ds, g = lead :: ds ∧ ds.length = 8 ∧ isDigits ds = true := by
  unfold matchIntl at h
  split at h
  · obtain ⟨hg, ds, hcs, h8, hd⟩ := matchTail_eq_some lead _ g h
    exact ⟨ds, by rw [hg, hcs], h8, hd⟩
  · split at h
    · rcases orElse_eq_some h with h2 | h2
      · obtain ⟨hg, ds, hcs, h8, hd⟩ := matchTail_eq_some lead _ g h2
        exact ⟨ds, by rw [hg, hcs], h8, hd⟩
      · obtain ⟨hg, ds, hcs, h8, hd⟩ := matchTail_eq_some lead _ g h2
        exact ⟨ds, by rw [hg, hcs], h8, hd⟩
    · obtain ⟨hg, ds, hcs, h8, hd⟩ := matchTail_eq_some lead _ g h
      exact ⟨ds, by rw [hg, hcs], h8, hd⟩

/-- Inverting the leading-zero patterns. -/
theorem matchZero_eq_some (lead : Char) (cs g : List Char)
    (h : matchZero lead cs = some g) :
    ∃ ds, g = lead :: ds ∧ ds.length = 8 ∧ isDigits ds = true := by
  unfold matchZero at h
  split at h
  · next rest =>
    obtain ⟨hg, ds, hcs, h8, hd⟩ := matchTail_eq_some lead _ g h
    exact ⟨ds, by rw [hg, hcs], h8, hd⟩
  · exact absurd h (by simp)

/-- Whatever pattern matched, the normalizer's output is `254` followed
by a lead digit 7 or 1 and eight further digits. -/
theorem normalizeChars_eq_some (cs g : List Char)
    (h : normalizeChars cs = some g) :
    ∃ lead ds, (lead = '7' ∨ lead = '1') ∧ ds.length = 8 ∧
      isDigits ds = true ∧ g = '2' :: '5' :: '4' :: lead :: ds := by
  unfold normalizeChars at h
  split at h
  · next g0 hchain =>
    cases h
    rcases orElse_eq_some hchain with h1 | h1
    · rcases orElse_eq_some h1 with h2 | h2
      · rcases orElse_eq_some h2 with h3 | h3
        · obtain ⟨ds, hg, h8, hd⟩ := matchIntl_eq_some '7' cs g0 h3
          exact ⟨'7', ds, Or.inl rfl, h8, hd, by rw [hg]⟩
        · obtain ⟨ds, hg, h8, hd⟩ := matchIntl_eq_some '1' cs g0 h3
          exact ⟨'1', ds, Or.inr rfl, h8, hd, by rw [hg]⟩
      · obtain ⟨ds, hg, h8, hd⟩ := matchZero_eq_some '7' cs g0 h2
        exact ⟨'7', ds, Or.inl rfl, h8, hd, by rw [hg]⟩
    · obtain ⟨ds, hg, h8, hd⟩ := matchZero_eq_some '1' cs g0 h1
      exact ⟨'1', ds, Or.inr rfl, h8, hd, by rw [hg]⟩
  · exact absurd h (by simp)

/-- The four accepted shapes of the same subscriber number all normalize
to the same canonical character list. -/
theorem normalizeChars_variants (lead : Char) (ds : List Char)
    (hl : lead = '7' ∨ lead = '1') (h8 : ds.length = 8)
    (hd : isDigits ds = true) :
    normalizeChars ('0' :: lead :: ds) = some ('2' :: '5' :: '4' :: lead :: ds) ∧
    normalizeChars (lead :: ds) = some ('2' :: '5' :: '4' :: lead :: ds) ∧
    normalizeChars ('2' :: '5' :: '4' :: lead :: ds) =
      some ('2' :: '5' :: '4' :: lead :: ds) ∧
    normalizeChars ('+' :: '2' :: '5' :: '4' :: lead :: ds) =
      some ('2' :: '5' :: '4' :: lead :: ds) := by
  rcases hl with rfl | rfl <;>
    refine ⟨?_, ?_, ?_, ?_⟩ <;>
      simp [normalizeChars, matchIntl, matchZero, matchTail, h8, hd,
        Option.orElse, List.take, List.drop]

/-- The canonical output consists solely of digits, so separator
stripping leaves it unchanged. -/
theorem stripSeps_canonical (lead : Char) (ds : List Char)
    (hl : lead = '7' ∨ lead = '1') (hd : isDigits ds = true) :
    stripSeps ('2' :: '5' :: '4' :: lead :: ds) =
      '2' :: '5' :: '4' :: lead :: ds := by
  have hds : ds.filter (fun c => !sepChar c) = ds := by
    refine List.filter_eq_self.mpr ?_
    intro c hc
    have hdc : isDigitChar c = true := by
      have := List.all_eq_true.mp hd
      exact this c hc
    simp [sepChar_of_isDigitChar c hdc]
  rcases hl with rfl | rfl <;>
    simp [stripSeps, List.filter_cons, (by decide : sepChar '2' = false),
      (by decide : sepChar '5' = false), (by decide : sepChar '4' = false),
      (by decide : sepChar '7' = false), (by decide : sepChar '1' = false)] <;>
    simpa [stripSeps] using hds

/-- C5: for every subscriber number (a lead digit 7 or 1 followed by
eight digits), each accepted input variant — leading-zero national form,
bare short form, full international form with or without `+`, under any
whitespace/dash/parenthesis decoration (only the separator-stripped
characters matter) — normalizes to the identical canonical string `254`
followed by the nine digits; and every successful normalization returns
a string of that shape on which the normalizer is idempotent. -/
theorem phone_normalizer_canonical_idempotent :
    (∀ (lead : Char) (ds : List Char) (s : String),
      (lead = '7' ∨ lead = '1') → ds.length = 8 → isDigits ds = true →
      (stripSeps s.data = '0' :: lead :: ds ∨
       stripSeps s.data = lead :: ds ∨
       stripSeps s.data = '2' :: '5' :: '4' :: lead :: ds ∨
       stripSeps s.data = '+' :: '2' :: '5' :: '4' :: lead :: ds) →
      is_valid_phone_number s =
        some (String.mk ('2' :: '5' :: '4' :: lead :: ds))) ∧
    (∀ s r, is_valid_phone_number s = some r →
      (∃ lead ds, (lead = '7' ∨ lead = '1') ∧ ds.length = 8 ∧
        isDigits ds = true ∧
        r = String.mk ('2' :: '5' :: '4' :: lead :: ds)) ∧
      is_valid_phone_number r = some r) := by
  constructor
  · intro lead ds s hl h8 hd hvar
    have hv := normalizeChars_variants lead ds hl h8 hd
    unfold is_valid_phone_number
    rcases hvar with h | h | h | h <;> rw [h]
    · rw [hv.1]; rfl
    · rw [hv.2.1]; rfl
    · rw [hv.2.2.1]; rfl
    · rw [hv.2.2.2]; rfl
  · intro s r h
    unfold is_valid_phone_number at h
    rcases Option.map_eq_some'.mp h with ⟨g, hg, hr⟩
    obtain ⟨lead, ds, hl, h8, hd, hgshape⟩ := normalizeChars_eq_some _ g hg
    subst hgshape
    constructor
    · exact ⟨lead, ds, hl, h8, hd, hr.symm⟩
    · rw [← hr]
      unfold is_valid_phone_number
      have hdata : (String.mk ('2' :: '5' :: '4' :: lead :: ds)).data =
          '2' :: '5' :: '4' :: lead :: ds := rfl
      rw [hdata, stripSeps_canonical lead ds hl hd,
        (normalizeChars_variants lead ds hl h8 hd).2.2.1]
      rfl

/-- Witness for C5: the decorated input `0712 345-678`, the bare
canonical `254712345678`, and idempotence on a concrete output. -/
theorem phone_normalizer_canonical_idempotent_witness :
    is_valid_phone_number "0712 345-678" = some "254712345678" ∧
    is_valid_phone_number "254712345678" = some "254712345678" :=
  ⟨phone_normalizer_canonical_idempotent.1 '7'
      ['1', '2', '3', '4', '5', '6', '7', '8'] "0712 345-678"
      (Or.inl rfl) (by decide) (by decide) (Or.inl (by decide)),
   (phone_normalizer_canonical_idempotent.2 "0712345678" "254712345678"
      (by decide)).2⟩

/-- A successful lookup returns a catalog entry. -/
theorem lookupPackage_mem (d : String) (p : DataPackage)
    (h : lookupPackage d = some p) : ∃ k, (k, p) ∈ data_packages := by
  unfold lookupPackage at h
  rcases Option.map_eq_some'.mp h with ⟨kv, hfind, hsnd⟩
  exact ⟨kv.1, by rw [← hsnd]; simpa using List.mem_of_find?_eq_some hfind⟩

/-- The session invariant is preserved by every dispatch step. -/
theorem sessionInv_step (ref : String) (resp : GatewayResponse) (cfg : Config)
    (ev : Event) (h : SessionInv cfg) : SessionInv (step ref resp cfg ev).1 := by
  obtain ⟨st, ud, n⟩ := cfg
  obtain ⟨hpkg, hph, hconf⟩ := h
  cases st with
  | idle =>
    cases ev with
    | cmd_start =>
      refine ⟨?_, ?_, ?_⟩ <;> simp [step, start, show_bundles, UserData.empty]
    | cmd_bundles =>
      refine ⟨?_, ?_, ?_⟩ <;> simp [step, show_bundles]
      · exact hpkg
      · exact hph
    | cmd_restart =>
      refine ⟨?_, ?_, ?_⟩ <;>
        simp [step, restart_command, show_bundles, UserData.empty]
    | button d => exact ⟨hpkg, hph, hconf⟩
    | text s => exact ⟨hpkg, hph, hconf⟩
    | timeout => exact ⟨hpkg, hph, hconf⟩
  | choosingPackage =>
    cases ev with
    | cmd_start => exact ⟨hpkg, hph, hconf⟩
    | cmd_bundles => exact ⟨hpkg, hph, hconf⟩
    | cmd_restart =>
      refine ⟨?_, ?_, ?_⟩ <;>
        simp [step, restart_command, show_bundles, UserData.empty]
    | text s => exact ⟨hpkg, hph, hconf⟩
    | timeout => exact ⟨hpkg, hph, by simp [step]⟩
    | button d =>
      simp only [step]
      by_cases hm : matchesChoosePattern d = true
      · simp only [hm, if_true]
        unfold choose_package
        split_ifs with h1 h2 h3 h4 h5
        · exact ⟨hpkg, hph, by simp [show_menu]⟩
        · exact ⟨hpkg, hph, by simp [show_menu]⟩
        · exact ⟨hpkg, hph, by simp [show_menu]⟩
        · exact ⟨hpkg, hph, by simp [handle_support_button]⟩
        · exact ⟨hpkg, hph, by simp [cancel_purchase]⟩
        · cases hlp : lookupPackage d with
          | none => exact ⟨hpkg, hph, by simp⟩
          | some p =>
            refine ⟨?_, hph, by simp⟩
            intro pkg hp
            obtain rfl : p = pkg := by simpa using hp
            exact lookupPackage_mem d p hlp
      · simp only [hm, if_false, Bool.false_eq_true]
        by_cases hc : d = "cancel_purchase"
        · simp only [hc, if_true, if_pos rfl]
          exact ⟨hpkg, hph, by simp [cancel_purchase]⟩
        · simp only [if_neg hc]
          exact ⟨hpkg, hph, hconf⟩
  | gettingPhone =>
    cases ev with
    | cmd_start => exact ⟨hpkg, hph, hconf⟩
    | cmd_bundles => exact ⟨hpkg, hph, hconf⟩
    | cmd_restart =>
      refine ⟨?_, ?_, ?_⟩ <;>
        simp [step, restart_command, show_bundles, UserData.empty]
    | timeout => exact ⟨hpkg, hph, by simp [step]⟩
    | button d =>
      simp only [step]
      by_cases hc : d = "cancel_purchase"
      · simp only [if_pos hc]
        exact ⟨hpkg, hph, by simp [cancel_purchase]⟩
      · simp only [if_neg hc]
        exact ⟨hpkg, hph, hconf⟩
    | text s =>
      simp only [step]
      unfold get_phone_number
      cases hv : is_valid_phone_number s with
      | none => exact ⟨hpkg, hph, by simp⟩
      | some formatted =>
        cases hp : ud.package with
        | none => exact ⟨hpkg, hph, by simp⟩
        | some p0 =>
          refine ⟨by simpa using hpkg, ?_, by simp [hp]⟩
          intro p1 hp1
          obtain rfl : formatted = p1 := by simpa using hp1
          exact ⟨s, hv⟩
  | confirmingPurchase =>
    cases ev with
    | cmd_start => exact ⟨hpkg, hph, hconf⟩
    | cmd_bundles => exact ⟨hpkg, hph, hconf⟩
    | cmd_restart =>
      refine ⟨?_, ?_, ?_⟩ <;>
        simp [step, restart_command, show_bundles, UserData.empty]
    | text s => exact ⟨hpkg, hph, hconf⟩
    | timeout => exact ⟨hpkg, hph, by simp [step]⟩
    | button d =>
      simp only [step]
      by_cases hcd : (d = "confirm_purchase" || d = "change_phone") = true
      · simp only [hcd, if_true]
        unfold handle_confirmation
        split_ifs with h1
        · exact ⟨by simpa using hpkg, by simpa using hph, by simp⟩
        · cases hp : ud.package with
          | none =>
            exact absurd (hconf rfl).1 (by simp [hp])
          | some p0 =>
            exact ⟨by simpa using hpkg, by simpa using hph, by simp⟩
      · simp only [hcd, if_false, Bool.false_eq_true]
        by_cases hc : d = "cancel_purchase"
        · simp only [if_pos hc]
          exact ⟨hpkg, hph, by simp [cancel_purchase]⟩
        · simp only [if_neg hc]
          exact ⟨hpkg, hph, hconf⟩

/-- Every reachable configuration satisfies the session invariant. -/
theorem reachable_sessionInv (cfg : Config) (h : Reachable cfg) :
    SessionInv cfg := by
  induction h with
  | init => refine ⟨?_, ?_, ?_⟩ <;> simp [UserData.empty]
  | step ref resp ev hr ih => exact sessionInv_step ref resp _ ev ih

/-- C10: in every reachable ConfirmingPurchase configuration the session
holds a selected package that comes from the catalog and a phone number
that was produced by a successful normalization, so the confirmation
handler's reads of these fields never find them absent. -/
theorem confirming_session_has_package_and_phone (cfg : Config)
    (hr : Reachable cfg) (hs : cfg.state = ConvState.confirmingPurchase) :
    (∃ pkg, cfg.ud.package = some pkg ∧ ∃ k, (k, pkg) ∈ data_packages) ∧
    (∃ p, cfg.ud.phone_number = some p ∧ ∃ s, is_valid_phone_number s = some p) := by
  obtain ⟨hpkg, hph, hconf⟩ := reachable_sessionInv cfg hr
  obtain ⟨hps, hphs⟩ := hconf hs
  obtain ⟨pkg, hp⟩ := Option.isSome_iff_exists.mp hps
  obtain ⟨p, hp2⟩ := Option.isSome_iff_exists.mp hphs
  exact ⟨⟨pkg, hp, hpkg pkg hp⟩, ⟨p, hp2, hph p hp2⟩⟩

/-- Witness for C10: the configuration reached by `/start`, selecting
`data_1` and entering `0712345678` is in ConfirmingPurchase and
satisfies the invariant. -/
theorem confirming_session_has_package_and_phone_witness :
    (∃ pkg, ((step "r" GatewayResponse.transportError
        ((step "r" GatewayResponse.transportError
          ((step "r" GatewayResponse.transportError
            ⟨ConvState.idle, UserData.empty, 0⟩ Event.cmd_start).1)
          (Event.button "data_1")).1)
        (Event.text "0712345678")).1).ud.package = some pkg ∧
      ∃ k, (k, pkg) ∈ data_packages) ∧
    (∃ p, ((step "r" GatewayResponse.transportError
        ((step "r" GatewayResponse.transportError
          ((step "r" GatewayResponse.transportError
            ⟨ConvState.idle, UserData.empty, 0⟩ Event.cmd_start).1)
          (Event.button "data_1")).1)
        (Event.text "0712345678")).1).ud.phone_number = some p ∧
      ∃ s, is_valid_phone_number s = some p) :=
  confirming_session_has_package_and_phone _
    (Reachable.step "r" GatewayResponse.transportError (Event.text "0712345678")
      (Reachable.step "r" GatewayResponse.transportError (Event.button "data_1")
        (Reachable.step "r" GatewayResponse.transportError Event.cmd_start
          Reachable.init)))
    (by decide)

end Bingwa
